import Mathlib

/-!
Verification of the ai-ops-desk orchestration core.

Shallow embedding of:
- the Action agent (app/agents/action.py): sentiment/intent classification
  fallbacks, tool-plan derivation, tool dispatch with receipts, cost
  accounting, and resolution determination;
- the Policy agent (app/agents/policy.py with app/rag/queries.py): region
  derivation, region filtering and policy-drift selection;
- the orchestrator graph (app/graph.py): four nodes over one shared state,
  best-effort continuation on error.

Modelling conventions:
- Python strings stay `String`; datetimes become `Option Nat` ordinals
  (`datetime.min` is 0, so a missing effective-from sorts first, as in the
  Python `x.get("effective_from", datetime.min)` key);
- monetary amounts are `ℚ` (the Python costs are fixed decimal literals);
- LLM calls and tool bodies are external effects: each call site takes the
  call result as an `Except String _` parameter (`.error` models a raised
  exception), so the control flow around the call is embedded exactly;
- wall-clock latency measurements are not modelled; the orchestrator timing
  maps are modelled as the ordered list of stage names whose start (resp.
  end) timestamp was recorded, which captures execution and order.
-/

namespace OpsDesk

/-- Ticket record, restricted to the fields the action agent reads
(app/models/ticket.py). -/
structure Ticket where
  user_id : String
  status : String
  customer_sentiment : String
deriving DecidableEq, Repr

/-- Refund-request record, restricted to the fields the action agent reads
(app/models/refund_request.py). -/
structure RefundRequest where
  user_id : String
  amount : ℚ
  currency : String
  status : String
deriving DecidableEq, Repr

/-- Order record, restricted to the fields the policy/action agents read
(app/models/order.py); `shipping_country` is `shipping_address["country"]`
(absent key modelled as `""`, matching `order.shipping_address.get("country", "")`). -/
structure Order where
  user_id : String
  shipping_country : String
  status : String
deriving DecidableEq, Repr

/-- Policy document, restricted to the fields the policy agent reads
(app/models/policy.py). `effective_from` is optional because the drift sort
reads it with `x.get("effective_from", datetime.min)`. -/
structure Policy where
  region : String
  version : String
  effective_from : Option Nat
  effective_until : Option Nat
deriving DecidableEq, Repr

/-- RecordsOutput (app/models/records_output.py). -/
structure RecordsOutput where
  requests : List RefundRequest
  tickets : List Ticket
  orders : List Order
deriving DecidableEq, Repr

/-- PolicyOutput (app/models/policy_output.py). -/
structure PolicyOutput where
  policies : List Policy
deriving DecidableEq, Repr

/-! ## Action agent: classification (action.py lines 104-160) -/

/-- `VALID_INTENTS` (action.py line 18). -/
def VALID_INTENTS : List String := ["refund_request", "order_inquiry", "general"]

/-- `VALID_SENTIMENTS` (action.py line 24). -/
def VALID_SENTIMENTS : List String := ["negative", "positive", "neutral"]

/-- `_classify_intent` (action.py lines 104-130). The prompt construction only
feeds the LLM; the call result (or raised exception) is the parameter.
The code lowercases and strips the response, keeps it when it is a valid
intent, and falls back to `general` on an invalid response or any exception. -/
def classify_intent (llm_response : Except String String) : String :=
  match llm_response with
  | .error _ => "general"
  | .ok response =>
      let intent := response.trim.toLower
      if VALID_INTENTS.contains intent then intent else "general"

/-- `_classify_sentiment` (action.py lines 133-160). The existing-sentiment
argument only feeds the prompt; the call result is the parameter. Valid
responses are kept (after strip + lower), anything else degrades to `neutral`. -/
def classify_sentiment (llm_response : Except String String) : String :=
  match llm_response with
  | .error _ => "neutral"
  | .ok response =>
      let sentiment := response.trim.toLower
      if VALID_SENTIMENTS.contains sentiment then sentiment else "neutral"

/-! ## Action agent: ticket lookup and tool plan (action.py lines 76-100, 431-446) -/

/-- The active statuses tuple of `_find_existing_ticket` (action.py line 434). -/
def active_statuses : List String := ["in_progress", "open", "escalated"]

/-- `_find_existing_ticket` (action.py lines 431-446): first ticket of the user
with an active status, else any ticket of the user, else none. -/
def find_existing_ticket (tickets : List Ticket) (user_id : String) : Option Ticket :=
  match tickets.find? (fun t => t.user_id == user_id && active_statuses.contains t.status) with
  | some t => some t
  | none => tickets.find? (fun t => t.user_id == user_id)

/-- `_determine_tools` (action.py lines 76-100), parameterised by the already
classified sentiment and intent (the classification calls are modelled above). -/
def determine_tools (intent : String) (tickets : List Ticket) (user_id : String)
    (latest_sentiment : String) : List String :=
  let tools : List String := []
  let tools := if latest_sentiment == "negative" then tools ++ ["escalate_ticket"] else tools
  let tools := if intent == "refund_request"
    then tools ++ ["create_refund_request", "explain_refund_state"] else tools
  let tools := if intent == "order_inquiry" then tools ++ ["explain_order_state"] else tools
  if (find_existing_ticket tickets user_id).isSome
    then tools ++ ["update_ticket"]
    else tools ++ ["create_ticket"]

/-! ## Action agent: tool dispatch, cost, resolution (action.py lines 44-73, 194-217, 397-428) -/

/-- The keys of `self.available_tools` (action.py lines 34-41). -/
def available_tool_names : List String :=
  ["create_ticket", "update_ticket", "escalate_ticket",
   "create_refund_request", "explain_refund_state", "explain_order_state"]

/-- The Python dict a tool body returns: its `status` entry (if any) plus the
remaining entries, kept as an association list. -/
structure ToolPayload where
  status_field : Option Nat
  fields : List (String × String)
deriving DecidableEq, Repr

/-- ToolReceipt (app/models/action_output.py), with the wall-clock
`latency_ms` measurement omitted. -/
structure ToolReceipt where
  tool : String
  status : Nat
  response : List (String × String)
deriving DecidableEq, Repr

/-- `_execute_tool` (action.py lines 194-217): on a normal return the receipt
status is `response.get("status", 200)`; a raised exception is caught and
becomes a status-500 receipt whose payload is the singleton error mapping. -/
def execute_tool (tool_name : String) (outcome : Except String ToolPayload) : ToolReceipt :=
  match outcome with
  | .ok payload =>
      { tool := tool_name, status := payload.status_field.getD 200, response := payload.fields }
  | .error e =>
      { tool := tool_name, status := 500, response := [("error", e)] }

/-- The success test `200 <= r.status < 300` of `_determine_resolution`
(action.py line 415). -/
def is_success (r : ToolReceipt) : Bool :=
  200 ≤ r.status && r.status < 300

/-- The dispatch loop of `ActionAgent.process` (action.py lines 61-65),
receipts only: each plan entry that is an available tool is executed and
yields its own receipt, whatever the outcome. The `oracle` gives the result
of the i-th tool invocation (the i-th plan position). -/
def run_tools (oracle : Nat → Except String ToolPayload) :
    List String → Nat → List ToolReceipt
  | [], _ => []
  | t :: ts, i =>
      if available_tool_names.contains t
        then execute_tool t (oracle i) :: run_tools oracle ts (i + 1)
        else run_tools oracle ts (i + 1)

/-- `_calculate_tool_cost` (action.py lines 397-408): the fixed cost table
with default 0.001 for unknown tools. -/
def calculate_tool_cost (tool_name : String) : ℚ :=
  if tool_name == "create_ticket" then 15/10000
  else if tool_name == "update_ticket" then 1/1000
  else if tool_name == "escalate_ticket" then 3/1000
  else if tool_name == "create_refund_request" then 15/10000
  else if tool_name == "explain_refund_state" then 5/10000
  else if tool_name == "explain_order_state" then 5/10000
  else 1/1000

/-- The cost accumulation of the dispatch loop (action.py lines 59-65):
`total_cost` starts at the 0.002 classification cost and adds
`_calculate_tool_cost` for each tool that is actually executed. -/
def process_total_cost : List String → ℚ → ℚ
  | [], acc => acc
  | t :: ts, acc =>
      if available_tool_names.contains t
        then process_total_cost ts (acc + calculate_tool_cost t)
        else process_total_cost ts acc

/-- `_determine_resolution` (action.py lines 410-428). The `records_output`
parameter of the source is unused there and omitted. -/
def determine_resolution (tool_receipts : List ToolReceipt) : String :=
  if tool_receipts.isEmpty then "no_action_required"
  else
    let successful_tools := (tool_receipts.filter is_success).map (·.tool)
    if successful_tools.contains "create_refund_request" then "refund_request_created"
    else if successful_tools.contains "escalate_ticket" then "ticket_escalated"
    else if successful_tools.contains "update_ticket" then "ticket_updated"
    else if successful_tools.contains "create_ticket" then "ticket_created"
    else if successful_tools.contains "explain_refund_state" then "refund_state_explained"
    else "action_failed"

/-- ActionOutput (app/models/action_output.py). -/
structure ActionOutput where
  resolution : String
  tool_receipts : List ToolReceipt
  cost_token_usd : ℚ
deriving DecidableEq, Repr

/-- `ActionAgent.process` (action.py lines 44-73), parameterised by the
classified sentiment and intent and by the per-invocation tool outcomes. -/
def action_process (intent : String) (records_output : RecordsOutput) (user_id : String)
    (latest_sentiment : String) (oracle : Nat → Except String ToolPayload) : ActionOutput :=
  let tools_to_call := determine_tools intent records_output.tickets user_id latest_sentiment
  let tool_receipts := run_tools oracle tools_to_call 0
  { resolution := determine_resolution tool_receipts
    tool_receipts := tool_receipts
    cost_token_usd := process_total_cost tools_to_call (2/1000) }

/-! ## Policy agent (app/agents/policy.py, app/rag/queries.py) -/

/-- The region derivation of `PolicyAgent.process` (policy.py lines 44-57):
`US` when there is no order, `US`/`EU` from the shipping country, `EU` for
any unrecognised country. -/
def derive_region (order : Option Order) : String :=
  match order with
  | none => "US"
  | some o =>
      let country := o.shipping_country.toUpper
      if (["US", "USA", "UNITED STATES"] : List String).contains country then "US"
      else if (["UK", "GB", "UNITED KINGDOM", "FR", "FRANCE", "DE", "GERMANY",
                "IT", "ITALY", "ES", "SPAIN"] : List String).contains country then "EU"
      else "EU"

/-- The region filter of `get_policy_context` (queries.py lines 44-65):
the vector-search results restricted to the requested region, in retrieval
order. -/
def get_policy_context_policies (vector_results : List Policy) (region : String) : List Policy :=
  vector_results.filter (fun p => p.region == region)

/-- Sort key of the drift branch (policy.py line 77):
`x.get("effective_from", datetime.min)`, with `datetime.min` as 0. -/
def effective_from_key (p : Policy) : Nat :=
  p.effective_from.getD 0

/-- Insert into a list already sorted by descending `effective_from_key`,
after every element with a strictly larger key and before the first element
with a smaller-or-equal key (so an equal-key element inserted for an
earlier-positioned original stays in front: stability of Python's sort). -/
def insert_desc (x : Policy) : List Policy → List Policy
  | [] => [x]
  | y :: ys =>
      if effective_from_key x < effective_from_key y
        then y :: insert_desc x ys
        else x :: y :: ys

/-- The stable descending sort
`expired_policies.sort(key=..., reverse=True)` of policy.py line 77. -/
def sort_desc_by_effective_from : List Policy → List Policy
  | [] => []
  | x :: xs => insert_desc x (sort_desc_by_effective_from xs)

/-- The drift-selection logic of `PolicyAgent.process` (policy.py lines 59-88)
applied to the policies retrieved for the derived region:
with `use_latest = not policy_force_old_version`, when drift is forced and the
retrieval is non-empty, the expired subset (non-null `effective_until`), if
non-empty, replaces the candidates sorted newest-first; in every other case
the retrieved policies are used as-is. -/
def policy_process_select (policy_force_old_version : Bool) (retrieved : List Policy) :
    List Policy :=
  if policy_force_old_version && !retrieved.isEmpty then
    let expired := retrieved.filter (fun p => p.effective_until.isSome)
    if !expired.isEmpty then sort_desc_by_effective_from expired
    else retrieved
  else retrieved

/-- `PolicyAgent.process` (policy.py lines 36-100) composed end to end:
region from the order, region filter over the vector results, drift
selection. The final dict-to-model coercion is one-to-one and keeps order. -/
def policy_process (policy_force_old_version : Bool) (order : Option Order)
    (vector_results : List Policy) : PolicyOutput :=
  let region := derive_region order
  let retrieved := get_policy_context_policies vector_results region
  { policies := policy_process_select policy_force_old_version retrieved }

/-- Modelled from the spec (claim C3's second clause): the spec's reading of
the non-drift branch, in which the retrieved current policies come out
"sorted oldest-to-newest by effective_from". Built for comparison with
`policy_process_select`; the ascending stable sort mirrors
`sort_desc_by_effective_from` with the comparison flipped. -/
def insert_asc (x : Policy) : List Policy → List Policy
  | [] => [x]
  | y :: ys =>
      if effective_from_key y < effective_from_key x
        then y :: insert_asc x ys
        else x :: y :: ys

/-- Ascending stable sort used only by the spec-side reading of claim C3. -/
def sort_asc_by_effective_from : List Policy → List Policy
  | [] => []
  | x :: xs => insert_asc x (sort_asc_by_effective_from xs)

/-! ## Orchestrator graph (app/graph.py) -/

/-- AuditOutput (app/models/audit_output.py), restricted to the fields the
orchestrator claims touch; its construction happens inside the audit agent,
whose call is modelled as an external result. -/
structure AuditOutput where
  final_verdict : String
  rationale : String
deriving DecidableEq, Repr

/-- The shared `AgentState` (graph.py lines 26-52). The two timing dicts are
modelled as the ordered lists of stage names whose start (resp. end)
timestamp was recorded, since only the recording events (not the wall-clock
values) are meaningful in the embedding. -/
structure AgentState where
  records_output : Option RecordsOutput
  policy_output : Option PolicyOutput
  action_output : Option ActionOutput
  audit_output : Option AuditOutput
  resolution : Option String
  status : String
  error : Option String
  agent_start_times : List String
  agent_end_times : List String
deriving DecidableEq, Repr

/-- The state a run starts from (`status="running"`, everything else unset). -/
def initial_state : AgentState :=
  { records_output := none, policy_output := none, action_output := none,
    audit_output := none, resolution := none, status := "running", error := none,
    agent_start_times := [], agent_end_times := [] }

/-- `record_agent_timing` (graph.py lines 55-67), start side. -/
def record_start (state : AgentState) (agent_name : String) : AgentState :=
  { state with agent_start_times := state.agent_start_times ++ [agent_name] }

/-- `record_agent_timing` (graph.py lines 55-67), end side. -/
def record_end (state : AgentState) (agent_name : String) : AgentState :=
  { state with agent_end_times := state.agent_end_times ++ [agent_name] }

/-- `records_node` (graph.py lines 96-115): timing start, try the agent —
on success store the output, on an exception record the message and set
`status="error"` — then timing end. The agent call's result is the
`result` parameter. -/
def records_node (result : Except String RecordsOutput) (state : AgentState) : AgentState :=
  let state := record_start state "records"
  let state :=
    match result with
    | .ok r => { state with records_output := some r }
    | .error e =>
        { state with error := some ("Records agent failed: " ++ e), status := "error" }
  record_end state "records"

/-- `policy_node` (graph.py lines 71-92), same try/except shape. -/
def policy_node (result : Except String PolicyOutput) (state : AgentState) : AgentState :=
  let state := record_start state "policy"
  let state :=
    match result with
    | .ok r => { state with policy_output := some r }
    | .error e =>
        { state with error := some ("Policy agent failed: " ++ e), status := "error" }
  record_end state "policy"

/-- `action_node` (graph.py lines 119-138), same try/except shape. -/
def action_node (result : Except String ActionOutput) (state : AgentState) : AgentState :=
  let state := record_start state "action"
  let state :=
    match result with
    | .ok r => { state with action_output := some r }
    | .error e =>
        { state with error := some ("Action agent failed: " ++ e), status := "error" }
  record_end state "action"

/-- `audit_node` (graph.py lines 142-167): on success it stores the output,
sets `status="completed"` and copies the action resolution when an action
output exists; on an exception it records the message and sets
`status="error"`. -/
def audit_node (result : Except String AuditOutput) (state : AgentState) : AgentState :=
  let state := record_start state "audit"
  let state :=
    match result with
    | .ok r =>
        { state with
          audit_output := some r,
          status := "completed",
          resolution :=
            (match state.action_output with
             | some a => some a.resolution
             | none => state.resolution) }
    | .error e =>
        { state with error := some ("Audit agent failed: " ++ e), status := "error" }
  record_end state "audit"

/-- One result per stage: what each agent's `process` call does in this run
(`.error` models a raised exception escaping the agent). -/
structure StageResults where
  records : Except String RecordsOutput
  policy : Except String PolicyOutput
  action : Except String ActionOutput
  audit : Except String AuditOutput

/-- The compiled linear graph of `create_ops_desk_graph` (graph.py lines
173-193): entry point `records`, then the unconditional edges
records → policy → action → audit → END. -/
def run_ops_desk_graph (res : StageResults) (state : AgentState) : AgentState :=
  audit_node res.audit (action_node res.action (policy_node res.policy
    (records_node res.records state)))

/-- C3 counterexample policies: two current (non-expired) US policies
retrieved newest-first. -/
def policy_new : Policy := ⟨"US", "v2", some 2, none⟩

/-- C3 counterexample policies: the older of the two current US policies. -/
def policy_old : Policy := ⟨"US", "v1", some 1, none⟩

/-! ## Spec-side priority scan (for claim C2) -/

/-- Modelled from the spec (claim C2): the fixed priority order
`create_refund_request` > `escalate_ticket` > `update_ticket` >
`create_ticket` > `explain_refund_state` with the resolution label each
tool yields. -/
def resolution_priority : List (String × String) :=
  [("create_refund_request", "refund_request_created"),
   ("escalate_ticket", "ticket_escalated"),
   ("update_ticket", "ticket_updated"),
   ("create_ticket", "ticket_created"),
   ("explain_refund_state", "refund_state_explained")]

/-- Modelled from the spec (claim C2): scan the successful tool names in
priority order and return the first match's label. -/
def priority_scan (successful_tools : List String) : Option String :=
  (resolution_priority.find? (fun p => successful_tools.contains p.1)).map (·.2)

/-! ## Helper lemmas -/

theorem find_existing_ticket_isSome_iff (tickets : List Ticket) (user_id : String) :
    (find_existing_ticket tickets user_id).isSome ↔ ∃ t ∈ tickets, t.user_id = user_id := by
  unfold find_existing_ticket
  cases h : tickets.find? (fun t => t.user_id == user_id && active_statuses.contains t.status) with
  | some t =>
      simp only [Option.isSome_some, true_iff]
      have hp := List.find?_some h
      have hm := List.mem_of_find?_eq_some h
      simp only [Bool.and_eq_true, beq_iff_eq] at hp
      exact ⟨t, hm, hp.1⟩
  | none =>
      simp [List.find?_isSome]

theorem run_tools_map_tool (oracle : Nat → Except String ToolPayload)
    (plan : List String) (i : Nat) :
    (run_tools oracle plan i).map (·.tool)
      = plan.filter (fun t => available_tool_names.contains t) := by
  induction plan generalizing i with
  | nil => rfl
  | cons t ts ih =>
      by_cases h : t ∈ available_tool_names
      · cases hi : oracle i <;>
          simp [run_tools, List.filter_cons, h, execute_tool, hi, ih]
      · simp [run_tools, List.filter_cons, h, ih]

theorem process_total_cost_eq (plan : List String) (acc : ℚ) :
    process_total_cost plan acc
      = acc + ((plan.filter (fun t => available_tool_names.contains t)).map
          calculate_tool_cost).sum := by
  induction plan generalizing acc with
  | nil => simp [process_total_cost]
  | cons t ts ih =>
      by_cases h : t ∈ available_tool_names
      · simp [process_total_cost, List.filter_cons, h, ih]
        ring
      · simp [process_total_cost, List.filter_cons, h, ih]

theorem determine_tools_eq_append (intent : String) (tickets : List Ticket)
    (user_id latest_sentiment : String) :
    determine_tools intent tickets user_id latest_sentiment
      = ((if latest_sentiment == "negative" then ["escalate_ticket"] else [])
          ++ (if intent == "refund_request"
                then ["create_refund_request", "explain_refund_state"] else [])
          ++ (if intent == "order_inquiry" then ["explain_order_state"] else []))
        ++ [if (find_existing_ticket tickets user_id).isSome
              then "update_ticket" else "create_ticket"] := by
  unfold determine_tools
  by_cases h : (find_existing_ticket tickets user_id).isSome <;>
  by_cases hs : latest_sentiment = "negative" <;>
  by_cases hi1 : intent = "refund_request" <;>
  by_cases hi2 : intent = "order_inquiry" <;>
    simp [h, hs, hi1, hi2]

/-- C1: the tool plan is derived deterministically and order-significantly:
`escalate_ticket` comes first exactly when the classified sentiment is
negative, then `create_refund_request` followed by `explain_refund_state`
when the intent is `refund_request`, then `explain_order_state` when the
intent is `order_inquiry`, and the plan ends with exactly one of
`update_ticket` (the user has a ticket — an active one in
`{in_progress, open, escalated}` or any of theirs as fallback) or
`create_ticket` (the user has no ticket). -/
theorem C1_tool_plan_derivation (intent : String) (tickets : List Ticket)
    (user_id latest_sentiment : String) :
    determine_tools intent tickets user_id latest_sentiment
      = (if latest_sentiment = "negative" then ["escalate_ticket"] else [])
        ++ (if intent = "refund_request"
              then ["create_refund_request", "explain_refund_state"] else [])
        ++ (if intent = "order_inquiry" then ["explain_order_state"] else [])
        ++ [if ∃ t ∈ tickets, t.user_id = user_id then "update_ticket"
            else "create_ticket"] := by
  rw [determine_tools_eq_append]
  simp [find_existing_ticket_isSome_iff, List.append_assoc]

/-- C2: the resolution equals the first match when scanning the successful
tool names (receipt status in [200,300)) in the fixed priority order
`create_refund_request` > `escalate_ticket` > `update_ticket` >
`create_ticket` > `explain_refund_state`; an empty receipt list gives
`no_action_required` and no successful receipt gives `action_failed`. -/
theorem C2_resolution_priority_scan (tool_receipts : List ToolReceipt) :
    determine_resolution tool_receipts
      = if tool_receipts.isEmpty then "no_action_required"
        else (priority_scan ((tool_receipts.filter is_success).map (·.tool))).getD
          "action_failed" := by
  by_cases he : tool_receipts.isEmpty
  · simp [determine_resolution, he]
  · by_cases h1 :
        "create_refund_request" ∈ (tool_receipts.filter is_success).map (·.tool) <;>
    by_cases h2 :
        "escalate_ticket" ∈ (tool_receipts.filter is_success).map (·.tool) <;>
    by_cases h3 :
        "update_ticket" ∈ (tool_receipts.filter is_success).map (·.tool) <;>
    by_cases h4 :
        "create_ticket" ∈ (tool_receipts.filter is_success).map (·.tool) <;>
    by_cases h5 :
        "explain_refund_state" ∈ (tool_receipts.filter is_success).map (·.tool) <;>
    simp [determine_resolution, priority_scan, resolution_priority, List.find?,
      he, h1, h2, h3, h4, h5]

/-- C5: a tool invocation that raises yields a status-500 receipt whose
payload carries the error message under the `error` key instead of
propagating the exception; the dispatch loop still produces one receipt per
remaining executable plan entry whatever the outcomes; and a receipt denotes
success exactly when its status lies in [200,300). -/
theorem C5_tool_failure_isolation :
    (∀ (tool_name e : String),
        (execute_tool tool_name (.error e)).status = 500
        ∧ List.lookup "error" (execute_tool tool_name (.error e)).response = some e
        ∧ is_success (execute_tool tool_name (.error e)) = false)
    ∧ (∀ (oracle : Nat → Except String ToolPayload) (plan : List String),
        (run_tools oracle plan 0).map (·.tool)
          = plan.filter (fun t => available_tool_names.contains t))
    ∧ (∀ r : ToolReceipt, is_success r = true ↔ 200 ≤ r.status ∧ r.status < 300) := by
  refine ⟨fun tool_name e => ⟨rfl, ?_, rfl⟩,
    fun oracle plan => run_tools_map_tool oracle plan 0, fun r => ?_⟩
  · simp [execute_tool, List.lookup]
  · simp [is_success]

/-- C6: the cumulative cost reported by the Action stage equals the fixed
0.002 USD classification base cost plus the sum of the fixed per-tool cost
table over exactly the attempted tools (the receipts' tools), for every
choice of tool outcomes — success or failure does not change the cost. -/
theorem C6_cost_accounting :
    (∀ (intent : String) (records_output : RecordsOutput)
        (user_id latest_sentiment : String) (oracle : Nat → Except String ToolPayload),
        (action_process intent records_output user_id latest_sentiment
            oracle).cost_token_usd
          = 2/1000
            + (((action_process intent records_output user_id latest_sentiment
                  oracle).tool_receipts.map (·.tool)).map calculate_tool_cost).sum)
    ∧ calculate_tool_cost "create_ticket" = 15/10000
    ∧ calculate_tool_cost "update_ticket" = 1/1000
    ∧ calculate_tool_cost "escalate_ticket" = 3/1000
    ∧ calculate_tool_cost "create_refund_request" = 15/10000
    ∧ calculate_tool_cost "explain_refund_state" = 5/10000
    ∧ calculate_tool_cost "explain_order_state" = 5/10000
    ∧ (∀ t : String, t ∉ available_tool_names → calculate_tool_cost t = 1/1000) := by
  refine ⟨?_, rfl, rfl, rfl, rfl, rfl, rfl, ?_⟩
  · intro intent records_output user_id latest_sentiment oracle
    show process_total_cost _ (2/1000)
        = 2/1000 + ((List.map _ (run_tools oracle _ 0)).map calculate_tool_cost).sum
    rw [run_tools_map_tool, process_total_cost_eq]
  · intro t ht
    simp only [available_tool_names, List.mem_cons, List.not_mem_nil, or_false,
      not_or] at ht
    obtain ⟨h1, h2, h3, h4, h5, h6⟩ := ht
    simp [calculate_tool_cost, h1, h2, h3, h4, h5, h6]

/-- C7: classification degrades safely: an exception yields `neutral`
(sentiment) resp. `general` (intent); a normal response is kept, after
strip and lowercase, only when it is in the valid enumeration, and
otherwise defaults the same way; every result lies in the enumeration. -/
theorem C7_classification_degradation :
    (∀ e : String,
        classify_sentiment (.error e) = "neutral"
        ∧ classify_intent (.error e) = "general")
    ∧ (∀ r : String,
        classify_sentiment (.ok r)
          = (if r.trim.toLower ∈ VALID_SENTIMENTS then r.trim.toLower else "neutral")
        ∧ classify_intent (.ok r)
          = (if r.trim.toLower ∈ VALID_INTENTS then r.trim.toLower else "general"))
    ∧ (∀ resp : Except String String,
        classify_sentiment resp ∈ VALID_SENTIMENTS
        ∧ classify_intent resp ∈ VALID_INTENTS) := by
  have key : ∀ (x d : String) (L : List String), d ∈ L →
      (if L.contains x then x else d) ∈ L := by
    intro x d L hd
    by_cases h : L.contains x
    · rw [if_pos h]
      exact List.mem_of_elem_eq_true h
    · rw [if_neg h]
      exact hd
  refine ⟨fun e => ⟨rfl, rfl⟩, fun r => ⟨?_, ?_⟩, fun resp => ⟨?_, ?_⟩⟩
  · by_cases h : r.trim.toLower ∈ VALID_SENTIMENTS <;> simp [classify_sentiment, h]
  · by_cases h : r.trim.toLower ∈ VALID_INTENTS <;> simp [classify_intent, h]
  · cases resp with
    | error e =>
        show "neutral" ∈ VALID_SENTIMENTS
        decide
    | ok r => exact key _ _ _ (by decide)
  · cases resp with
    | error e =>
        show "general" ∈ VALID_INTENTS
        decide
    | ok r => exact key _ _ _ (by decide)

theorem determine_resolution_ne_no_action (tool_receipts : List ToolReceipt)
    (h : tool_receipts ≠ []) :
    determine_resolution tool_receipts ≠ "no_action_required" := by
  have he : tool_receipts.isEmpty = false := by
    cases tool_receipts with
    | nil => exact absurd rfl h
    | cons a l => rfl
  by_cases h1 :
      "create_refund_request" ∈ (tool_receipts.filter is_success).map (·.tool) <;>
  by_cases h2 :
      "escalate_ticket" ∈ (tool_receipts.filter is_success).map (·.tool) <;>
  by_cases h3 :
      "update_ticket" ∈ (tool_receipts.filter is_success).map (·.tool) <;>
  by_cases h4 :
      "create_ticket" ∈ (tool_receipts.filter is_success).map (·.tool) <;>
  by_cases h5 :
      "explain_refund_state" ∈ (tool_receipts.filter is_success).map (·.tool) <;>
  simp [determine_resolution, he, h1, h2, h3, h4, h5]

theorem determine_tools_all_available (intent : String) (tickets : List Ticket)
    (user_id latest_sentiment : String) :
    ∀ t ∈ determine_tools intent tickets user_id latest_sentiment,
      t ∈ available_tool_names := by
  intro t ht
  rw [determine_tools_eq_append] at ht
  simp only [List.mem_append, List.mem_cons, List.not_mem_nil, or_false] at ht
  rcases ht with ((h | h) | h) | h <;>
    split at h <;>
    first
      | exact absurd h (List.not_mem_nil _)
      | · simp only [available_tool_names, List.mem_cons, List.not_mem_nil,
            or_false] at h ⊢
          tauto

/-- C8: the tool plan is never empty and ends with exactly one of
`update_ticket` or `create_ticket` (never both occur); every planned tool is
executable, so the Action stage always produces at least one receipt and its
resolution is never `no_action_required`. -/
theorem C8_plan_never_empty (intent : String) (records_output : RecordsOutput)
    (user_id latest_sentiment : String) (oracle : Nat → Except String ToolPayload) :
    determine_tools intent records_output.tickets user_id latest_sentiment ≠ []
    ∧ (determine_tools intent records_output.tickets user_id
          latest_sentiment).getLast?
        = some (if (find_existing_ticket records_output.tickets user_id).isSome
            then "update_ticket" else "create_ticket")
    ∧ (determine_tools intent records_output.tickets user_id
          latest_sentiment).count "update_ticket"
        + (determine_tools intent records_output.tickets user_id
            latest_sentiment).count "create_ticket" = 1
    ∧ (action_process intent records_output user_id latest_sentiment
        oracle).tool_receipts ≠ []
    ∧ (action_process intent records_output user_id latest_sentiment
        oracle).resolution ≠ "no_action_required" := by
  have happ := determine_tools_eq_append intent records_output.tickets user_id
    latest_sentiment
  have hne : determine_tools intent records_output.tickets user_id
      latest_sentiment ≠ [] := by
    rw [happ]
    simp
  have hreceipts : (action_process intent records_output user_id latest_sentiment
      oracle).tool_receipts ≠ [] := by
    show run_tools oracle _ 0 ≠ []
    intro hnil
    have hmap := run_tools_map_tool oracle
      (determine_tools intent records_output.tickets user_id latest_sentiment) 0
    rw [hnil] at hmap
    have hfilter : (determine_tools intent records_output.tickets user_id
        latest_sentiment).filter (fun t => available_tool_names.contains t)
        = determine_tools intent records_output.tickets user_id latest_sentiment := by
      apply List.filter_eq_self.mpr
      intro a ha
      have := determine_tools_all_available intent records_output.tickets user_id
        latest_sentiment a ha
      simp [this]
    rw [hfilter] at hmap
    exact hne hmap.symm
  refine ⟨hne, ?_, ?_, hreceipts, ?_⟩
  · rw [happ, List.getLast?_concat]
  · rw [happ]
    by_cases h : (find_existing_ticket records_output.tickets user_id).isSome <;>
    by_cases hs : latest_sentiment = "negative" <;>
    by_cases hi1 : intent = "refund_request" <;>
    by_cases hi2 : intent = "order_inquiry" <;>
      simp [h, hs, hi1, hi2, List.count_append, List.count_cons]
  · exact determine_resolution_ne_no_action _ hreceipts

/-- C9: `explain_order_state` is absent from the resolution priority scan:
whenever the successful receipts all belong to `explain_order_state` (and at
least one such successful receipt exists), the resolution is `action_failed`. -/
theorem C9_explain_order_state_unranked (tool_receipts : List ToolReceipt)
    (hex : ∃ r ∈ tool_receipts, is_success r = true ∧ r.tool = "explain_order_state")
    (hall : ∀ r ∈ tool_receipts, is_success r = true → r.tool = "explain_order_state") :
    determine_resolution tool_receipts = "action_failed" := by
  obtain ⟨r0, hr0m, hr0s, hr0t⟩ := hex
  have he : tool_receipts.isEmpty = false := by
    cases tool_receipts with
    | nil => cases hr0m
    | cons a l => rfl
  have hmem : ∀ x ∈ (tool_receipts.filter is_success).map (·.tool),
      x = "explain_order_state" := by
    intro x hx
    simp only [List.mem_map, List.mem_filter] at hx
    obtain ⟨r, ⟨hrm, hrs⟩, rfl⟩ := hx
    exact hall r hrm hrs
  have hc : ∀ name : String, name ≠ "explain_order_state" →
      name ∉ (tool_receipts.filter is_success).map (·.tool) := by
    intro name hn hcon
    exact hn (hmem name hcon)
  have h1 := hc "create_refund_request" (by decide)
  have h2 := hc "escalate_ticket" (by decide)
  have h3 := hc "update_ticket" (by decide)
  have h4 := hc "create_ticket" (by decide)
  have h5 := hc "explain_refund_state" (by decide)
  simp [determine_resolution, he, h1, h2, h3, h4, h5]

/-- Witness for C9 at a concrete receipt list: one successful
`explain_order_state` receipt alone yields `action_failed`. -/
theorem C9_witness :
    determine_resolution [⟨"explain_order_state", 200, []⟩] = "action_failed" :=
  C9_explain_order_state_unranked _ (by decide) (by decide)

theorem insert_desc_perm (x : Policy) (l : List Policy) :
    (insert_desc x l).Perm (x :: l) := by
  induction l with
  | nil => exact List.Perm.refl _
  | cons y ys ih =>
      unfold insert_desc
      by_cases h : effective_from_key x < effective_from_key y
      · rw [if_pos h]
        exact (ih.cons y).trans (List.Perm.swap x y ys)
      · rw [if_neg h]

theorem sort_desc_perm (l : List Policy) :
    (sort_desc_by_effective_from l).Perm l := by
  induction l with
  | nil => exact List.Perm.refl _
  | cons x xs ih =>
      exact (insert_desc_perm x (sort_desc_by_effective_from xs)).trans (ih.cons x)

theorem insert_desc_pairwise (x : Policy) (l : List Policy)
    (h : l.Pairwise (fun a b => effective_from_key b ≤ effective_from_key a)) :
    (insert_desc x l).Pairwise (fun a b => effective_from_key b ≤ effective_from_key a) := by
  induction l with
  | nil => simp [insert_desc]
  | cons y ys ih =>
      rcases List.pairwise_cons.mp h with ⟨hy, hys⟩
      unfold insert_desc
      by_cases hk : effective_from_key x < effective_from_key y
      · rw [if_pos hk]
        refine List.pairwise_cons.mpr ⟨?_, ih hys⟩
        intro b hb
        have hb2 : b ∈ x :: ys := (insert_desc_perm x ys).mem_iff.mp hb
        rcases List.mem_cons.mp hb2 with rfl | hbys
        · exact le_of_lt hk
        · exact hy b hbys
      · rw [if_neg hk]
        have hyx : effective_from_key y ≤ effective_from_key x := Nat.not_lt.mp hk
        refine List.pairwise_cons.mpr ⟨?_, h⟩
        intro b hb
        rcases List.mem_cons.mp hb with rfl | hbys
        · exact hyx
        · exact le_trans (hy b hbys) hyx

theorem sort_desc_pairwise (l : List Policy) :
    (sort_desc_by_effective_from l).Pairwise
      (fun a b => effective_from_key b ≤ effective_from_key a) := by
  induction l with
  | nil => simp [sort_desc_by_effective_from]
  | cons x xs ih => exact insert_desc_pairwise x _ ih

/-- C3 counterexample: with the drift toggle off, the Policy stage returns
the retrieved current policies in retrieval order, not sorted
oldest-to-newest by effective_from as the claim states: retrieving the
newer policy first leaves it first. -/
theorem C3_counterexample :
    policy_process_select false [policy_new, policy_old] = [policy_new, policy_old]
    ∧ sort_asc_by_effective_from [policy_new, policy_old] = [policy_old, policy_new]
    ∧ policy_process_select false [policy_new, policy_old]
        ≠ sort_asc_by_effective_from [policy_new, policy_old] := by
  refine ⟨rfl, ?_, ?_⟩ <;> decide

/-- C3 (amended): when the force-old-version toggle is set and at least one
policy retrieved for the derived region is expired (non-null
`effective_until`), the Policy stage output is exactly those expired
policies (a permutation of them, all expired) sorted by `effective_from`
newest-first; otherwise the output is the originally retrieved current
policies in their retrieved order (no re-sorting). All retrieved policies
carry the derived region. -/
theorem C3_policy_drift_selection (policy_force_old_version : Bool)
    (order : Option Order) (vector_results : List Policy) :
    (∀ p ∈ get_policy_context_policies vector_results (derive_region order),
        p.region = derive_region order)
    ∧ (policy_force_old_version = true →
        (get_policy_context_policies vector_results (derive_region order)).filter
            (fun p => p.effective_until.isSome) ≠ [] →
        (policy_process policy_force_old_version order vector_results).policies
            = sort_desc_by_effective_from
                ((get_policy_context_policies vector_results
                  (derive_region order)).filter (fun p => p.effective_until.isSome))
          ∧ (policy_process policy_force_old_version order vector_results).policies.Perm
              ((get_policy_context_policies vector_results
                (derive_region order)).filter (fun p => p.effective_until.isSome))
          ∧ (∀ p ∈ (policy_process policy_force_old_version order
                vector_results).policies, p.effective_until.isSome)
          ∧ (policy_process policy_force_old_version order
              vector_results).policies.Pairwise
                (fun a b => effective_from_key b ≤ effective_from_key a))
    ∧ ((policy_force_old_version = false ∨
          (get_policy_context_policies vector_results (derive_region order)).filter
            (fun p => p.effective_until.isSome) = []) →
        (policy_process policy_force_old_version order vector_results).policies
          = get_policy_context_policies vector_results (derive_region order)) := by
  refine ⟨?_, ?_, ?_⟩
  · intro p hp
    have := List.mem_filter.mp hp
    simpa using this.2
  · intro htog hexp
    have hretne : get_policy_context_policies vector_results (derive_region order) ≠ [] := by
      intro hnil
      rw [hnil] at hexp
      exact hexp rfl
    have hsel : (policy_process policy_force_old_version order vector_results).policies
        = sort_desc_by_effective_from
            ((get_policy_context_policies vector_results (derive_region order)).filter
              (fun p => p.effective_until.isSome)) := by
      show policy_process_select _ _ = _
      unfold policy_process_select
      rw [htog]
      rw [if_pos, if_pos]
      · simpa using hexp
      · simpa using hretne
    refine ⟨hsel, ?_, ?_, ?_⟩
    · rw [hsel]
      exact sort_desc_perm _
    · intro p hp
      rw [hsel] at hp
      have hp2 := (sort_desc_perm _).mem_iff.mp hp
      exact (List.mem_filter.mp hp2).2
    · rw [hsel]
      exact sort_desc_pairwise _
  · intro hcase
    show policy_process_select _ _ = _
    unfold policy_process_select
    rcases hcase with htog | hexp
    · rw [htog]
      simp
    · by_cases hret :
          (get_policy_context_policies vector_results (derive_region order)).isEmpty
      · simp [hret]
      · simp only [hret, Bool.not_false, Bool.and_true]
        rw [hexp]
        simp

/-- C4: the four stages execute unconditionally in the fixed order Records,
Policy, Action, Audit — both timing lists always record exactly these four
stages in this order, whatever succeeded or raised; the terminal status is
`completed` exactly when the Audit stage runs without raising (and `error`
with the audit message otherwise); and each stage raising records its
message in the error field and sets the status to `error` without halting
the pipeline. -/
theorem C4_orchestrator_best_effort :
    (∀ res : StageResults,
        (run_ops_desk_graph res initial_state).agent_start_times
          = ["records", "policy", "action", "audit"]
        ∧ (run_ops_desk_graph res initial_state).agent_end_times
          = ["records", "policy", "action", "audit"])
    ∧ (∀ (rec : Except String RecordsOutput) (pol : Except String PolicyOutput)
        (act : Except String ActionOutput) (au : AuditOutput),
        (run_ops_desk_graph ⟨rec, pol, act, .ok au⟩ initial_state).status = "completed")
    ∧ (∀ (rec : Except String RecordsOutput) (pol : Except String PolicyOutput)
        (act : Except String ActionOutput) (e : String),
        (run_ops_desk_graph ⟨rec, pol, act, .error e⟩ initial_state).status = "error"
        ∧ (run_ops_desk_graph ⟨rec, pol, act, .error e⟩ initial_state).error
            = some ("Audit agent failed: " ++ e))
    ∧ (∀ (st : AgentState) (e : String),
        (records_node (.error e) st).status = "error"
        ∧ (records_node (.error e) st).error = some ("Records agent failed: " ++ e)
        ∧ (policy_node (.error e) st).status = "error"
        ∧ (policy_node (.error e) st).error = some ("Policy agent failed: " ++ e)
        ∧ (action_node (.error e) st).status = "error"
        ∧ (action_node (.error e) st).error = some ("Action agent failed: " ++ e)
        ∧ (audit_node (.error e) st).status = "error"
        ∧ (audit_node (.error e) st).error = some ("Audit agent failed: " ++ e)) := by
  refine ⟨?_, ?_, ?_, ?_⟩
  · rintro ⟨rec, pol, act, au⟩
    cases rec <;> cases pol <;> cases act <;> cases au <;> exact ⟨rfl, rfl⟩
  · intro rec pol act au
    cases rec <;> cases pol <;> cases act <;> rfl
  · intro rec pol act e
    cases rec <;> cases pol <;> cases act <;> exact ⟨rfl, rfl⟩
  · intro st e
    exact ⟨rfl, rfl, rfl, rfl, rfl, rfl, rfl, rfl⟩

/-- C10: if the Audit stage completes without raising, the final status is
`completed` even when an earlier stage (here: Policy) had set the status to
`error`; the earlier stage's error message stays readable in the error field
alongside the `completed` status, because a successful audit node never
touches the error field. -/
theorem C10_completed_keeps_stale_error (r : RecordsOutput) (pe : String)
    (ao : ActionOutput) (au : AuditOutput) :
    (run_ops_desk_graph ⟨.ok r, .error pe, .ok ao, .ok au⟩ initial_state).status
        = "completed"
    ∧ (run_ops_desk_graph ⟨.ok r, .error pe, .ok ao, .ok au⟩ initial_state).error
        = some ("Policy agent failed: " ++ pe)
    ∧ (∀ (st : AgentState) (a : AuditOutput),
        (audit_node (.ok a) st).status = "completed"
        ∧ (audit_node (.ok a) st).error = st.error) :=
  ⟨rfl, rfl, fun _ _ => ⟨rfl, rfl⟩⟩

/-- Witness for C3 at a concrete drift scenario: toggle on, no order
(region defaults to US), one expired and one current US policy retrieved —
the output is exactly the expired policy. -/
theorem C3_witness :
    (policy_process true none
        [⟨"US", "v2", some 2, none⟩, ⟨"US", "v1", some 1, some 9⟩]).policies
      = [⟨"US", "v1", some 1, some 9⟩] :=
  ((C3_policy_drift_selection true none
      [⟨"US", "v2", some 2, none⟩, ⟨"US", "v1", some 1, some 9⟩]).2.1
    rfl (by decide)).1

/-- Witness for C6 at a concrete run: the example-scenario plan
(create_refund_request, explain_refund_state, create_ticket) with every tool
failing still costs 0.002 + 0.0015 + 0.0005 + 0.0015 USD, and an unknown
tool name costs the 0.001 default. -/
theorem C6_witness :
    (action_process "refund_request" ⟨[], [], []⟩ "user_001" "neutral"
        (fun _ => .error "boom")).cost_token_usd
      = 2/1000
        + (((action_process "refund_request" ⟨[], [], []⟩ "user_001" "neutral"
              (fun _ => .error "boom")).tool_receipts.map (·.tool)).map
            calculate_tool_cost).sum
    ∧ calculate_tool_cost "unknown_tool" = 1/1000 :=
  ⟨C6_cost_accounting.1 "refund_request" ⟨[], [], []⟩ "user_001" "neutral"
      (fun _ => .error "boom"),
    C6_cost_accounting.2.2.2.2.2.2.2 "unknown_tool" (by decide)⟩

/-- Witness for C8 at a concrete run: a user with no ticket and general
intent gets the one-element plan ending in `create_ticket`, and even with
the single tool failing the resolution is not `no_action_required`. -/
theorem C8_witness :
    (determine_tools "general" ([] : List Ticket) "user_001" "neutral").getLast?
      = some "create_ticket"
    ∧ (action_process "general" ⟨[], [], []⟩ "user_001" "neutral"
        (fun _ => .error "boom")).resolution ≠ "no_action_required" :=
  ⟨(C8_plan_never_empty "general" ⟨[], [], []⟩ "user_001" "neutral"
      (fun _ => .error "boom")).2.1,
    (C8_plan_never_empty "general" ⟨[], [], []⟩ "user_001" "neutral"
      (fun _ => .error "boom")).2.2.2.2⟩

end OpsDesk
